import Mathlib

/-!
Shallow embedding of the BragBoard backend core (the "Activity & Notification
Engine" of `src/shoutouts.py`, together with the reader endpoints of
`src/notifications.py` and `src/admin.py`, over the relational schema of
`src/models.py`).

The relational store is modelled as explicit lists of rows (`DB`); each HTTP
handler becomes a pure function threading the `DB` state and returning
`Except` with the HTTP status code it would raise.  Timestamps are Python
`datetime` values modelled as wall-clock minutes plus an optional fixed
utc-offset (`none` = naive).  Strings that undergo character-level edits
(`_truncate`, message building) are `List Char`; tag-like strings compared
only for equality (status, event type, reaction kind) are `String`.
Primary keys, assigned by the store's autoincrement, are modelled by the
`nextId` counter.
-/

namespace BragBoard

/-- Python `str.isspace` characters stripped by `str.strip()` (ASCII range). -/
def pyIsSpace (c : Char) : Bool :=
  c = ' ' || c = '\t' || c = '\n' || c = '\r' || c = '\x0b' || c = '\x0c'

/-- Python `str.lstrip()`. -/
def pyLstrip (s : List Char) : List Char := s.dropWhile pyIsSpace

/-- Python `str.rstrip()`. -/
def pyRstrip (s : List Char) : List Char := (s.reverse.dropWhile pyIsSpace).reverse

/-- Python `str.strip()`. -/
def pyStrip (s : List Char) : List Char := pyRstrip (pyLstrip s)

/-- From `src/shoutouts.py`: `_truncate(text, limit)`: strip, return as-is when within
the limit, otherwise cut to `limit - 3` characters, rstrip, and append `...`. -/
def truncate (text : List Char) (limit : Nat) : List Char :=
  let clean := pyStrip text
  if clean.length ≤ limit then clean
  else pyRstrip (clean.take (limit - 3)) ++ ['.', '.', '.']

/-- A Python `datetime`: wall-clock value in minutes plus an optional fixed
offset east of UTC in minutes (`none` models a naive datetime). -/
structure PyDatetime where
  wall : Int
  tzOffset : Option Int
deriving DecidableEq

/-- Zone `Asia/Kolkata` is a fixed UTC+5:30 zone: 330 minutes east of UTC. -/
def ISTOffset : Int := 330

/-- From `src/shoutouts.py`: `_to_ist` on a non-null datetime: a naive value is
reinterpreted as UTC (`replace(tzinfo=timezone.utc)`), then `astimezone(IST)`
keeps the instant and moves the wall clock to UTC+5:30. -/
def toIst1 (dt : PyDatetime) : PyDatetime :=
  let off := dt.tzOffset.getD 0
  { wall := dt.wall - off + ISTOffset, tzOffset := some ISTOffset }

/-- From `src/shoutouts.py`: `_to_ist` (None-propagating). -/
def toIst : Option PyDatetime → Option PyDatetime
  | none => none
  | some dt => some (toIst1 dt)

/-- From `src/models.py`: `User` (fields the core logic reads). -/
structure UserRow where
  id : Nat
  fullName : List Char
  isAdmin : Bool
  departmentId : Option Nat
deriving DecidableEq

/-- From `src/models.py`: `ShoutOut`. -/
structure ShoutOutRow where
  id : Nat
  content : List Char
  createdAt : PyDatetime
  createdById : Nat
  departmentId : Option Nat
deriving DecidableEq

/-- From `src/models.py`: `ShoutOutRecipient`. -/
structure RecipientRow where
  shoutoutId : Nat
  userId : Nat
deriving DecidableEq

/-- From `src/models.py`: `Reaction`. -/
structure ReactionRow where
  id : Nat
  shoutoutId : Nat
  userId : Nat
  type : String
  createdAt : PyDatetime
deriving DecidableEq

/-- From `src/models.py`: `Comment`. -/
structure CommentRow where
  id : Nat
  shoutoutId : Nat
  userId : Nat
  content : List Char
  createdAt : PyDatetime
  parentId : Option Nat
deriving DecidableEq

/-- From `src/models.py`: `Attachment`. -/
structure AttachmentRow where
  id : Nat
  shoutoutId : Nat
  fileUrl : String
  fileName : String
  fileType : String
  createdAt : PyDatetime
deriving DecidableEq

/-- From `src/models.py`: `Report`. -/
structure ReportRow where
  id : Nat
  shoutoutId : Nat
  reporterId : Nat
  reason : Option (List Char)
  status : String
  createdAt : PyDatetime
  resolvedAt : Option PyDatetime
  resolvedById : Option Nat
deriving DecidableEq

/-- From `src/models.py`: `Notification`. -/
structure NotificationRow where
  id : Nat
  userId : Nat
  shoutoutId : Nat
  isRead : Bool
  createdAt : PyDatetime
deriving DecidableEq

/-- From `src/models.py`: `AdminNotification`. -/
structure AdminNotificationRow where
  id : Nat
  eventType : String
  message : List Char
  createdAt : PyDatetime
  actorId : Nat
  shoutoutId : Option Nat
  reportId : Option Nat
deriving DecidableEq

/-- The relational store: one list of rows per table, plus the autoincrement
counter for freshly assigned primary keys. -/
structure DB where
  shoutouts : List ShoutOutRow
  recipients : List RecipientRow
  reactions : List ReactionRow
  comments : List CommentRow
  attachments : List AttachmentRow
  reports : List ReportRow
  notifications : List NotificationRow
  adminNotifications : List AdminNotificationRow
  nextId : Nat
deriving DecidableEq

/-- From `src/shoutouts.py`: `_notify_admins`: insert one `AdminNotification` row with
the message truncated to 500 characters. -/
def notifyAdmins (db : DB) (actorId : Nat) (eventType : String) (message : List Char)
    (shoutoutId reportId : Option Nat) (now : PyDatetime) : DB :=
  { db with
    adminNotifications := db.adminNotifications ++
      [{ id := db.nextId, eventType := eventType, message := truncate message 500,
         createdAt := now, actorId := actorId, shoutoutId := shoutoutId,
         reportId := reportId }],
    nextId := db.nextId + 1 }

/-- Replace the first element satisfying `p` (SQLAlchemy: mutate the single row
fetched by `.first()` / `db.get`). -/
def updateFirst (p : α → Bool) (f : α → α) : List α → List α
  | [] => []
  | x :: xs => if p x then f x :: xs else x :: updateFirst p f xs

/-- Notification rows inserted for a list of recipients, with store-assigned
consecutive primary keys starting at `nid`. -/
def mkNotifs (sid : Nat) (now : PyDatetime) : Nat → List Nat → List NotificationRow
  | _, [] => []
  | nid, rid :: rest =>
    ({ id := nid, userId := rid, shoutoutId := sid, isRead := false,
       createdAt := now } :: mkNotifs sid now (nid + 1) rest)

/-- The serialized shout-out shape (`schemas.ShoutOutOut`): the row together
with its loaded recipients/reactions/comments/attachments. -/
structure ShoutOutOut where
  id : Nat
  content : List Char
  departmentId : Option Nat
  createdAt : PyDatetime
  createdById : Nat
  recipients : List Nat
  reactions : List ReactionRow
  comments : List CommentRow
  attachments : List AttachmentRow
deriving DecidableEq

/-- Insertion into a list kept in descending key order (models SQL
`ORDER BY ... DESC`; ties keep an unspecified order, as in SQL). -/
def insertDescBy (key : α → Int) (x : α) : List α → List α
  | [] => [x]
  | y :: ys => if key y ≤ key x then x :: y :: ys else y :: insertDescBy key x ys

/-- Insertion sort by descending key. -/
def sortDescBy (key : α → Int) : List α → List α
  | [] => []
  | x :: xs => insertDescBy key x (sortDescBy key xs)

namespace Shoutouts

/-- From `src/shoutouts.py`: `create_shoutout`.  Python iterates `set(recipient_ids)`;
the set's contents are modelled by `List.dedup` (iteration order is unspecified
in Python and irrelevant to every property claimed).  `department_id or
current_user.department_id` is modelled on `Option` (`None` falsy). -/
def createShoutout (db : DB) (actor : UserRow) (content : List Char)
    (departmentId : Option Nat) (recipientIds : List Nat) (now : PyDatetime) :
    Except Nat (DB × ShoutOutRow) :=
  if recipientIds.isEmpty then .error 400
  else
    let shout : ShoutOutRow :=
      { id := db.nextId, content := content, createdAt := now,
        createdById := actor.id,
        departmentId := (match departmentId with
          | some d => some d
          | none => actor.departmentId) }
    let dedup := recipientIds.dedup
    let recips := dedup.map (fun rid => RecipientRow.mk shout.id rid)
    let targets := dedup.filter (fun rid => rid != actor.id)
    let notifs := mkNotifs shout.id now (db.nextId + 1) targets
    .ok ({ db with
            shoutouts := db.shoutouts ++ [shout],
            recipients := db.recipients ++ recips,
            notifications := db.notifications ++ notifs,
            nextId := db.nextId + 1 + targets.length },
         shout)

/-- The row predicate `Reaction.shoutout_id == sid AND Reaction.user_id == uid`. -/
def reactionPair (sid uid : Nat) (r : ReactionRow) : Bool :=
  r.shoutoutId == sid && r.userId == uid

/-- Outcome tag of `react_to_shoutout` (the Python handler signals removal by
raising an HTTPException with status 200, and 404 for a missing shout-out). -/
inductive ReactOutcome
  | notFound
  | removed
  | updated
  | created
deriving DecidableEq

/-- The creator-notification block duplicated verbatim in `react_to_shoutout`
(lines 226–239) and `comment_on_shoutout` (lines 300–313): if the actor is not
the shout-out's creator, insert a Notification for the creator unless one
already exists for that `(user, shoutout)` pair. -/
def addCreatorNotification (db : DB) (creator actorId sid : Nat)
    (now : PyDatetime) : DB :=
  if creator ≠ actorId then
    match db.notifications.find?
        (fun n => n.userId == creator && n.shoutoutId == sid) with
    | some _ => db
    | none =>
      { db with
        notifications := db.notifications ++
          [{ id := db.nextId, userId := creator, shoutoutId := sid,
             isRead := false, createdAt := now }],
        nextId := db.nextId + 1 }
  else db

/-- From `src/shoutouts.py`: `react_to_shoutout`: toggle/update semantics plus the
deduplicated notification for the shout-out creator on the new-reaction path. -/
def reactToShoutout (db : DB) (sid uid : Nat) (ty : String) (now : PyDatetime) :
    DB × ReactOutcome :=
  match db.shoutouts.find? (fun s => s.id == sid) with
  | none => (db, .notFound)
  | some shout =>
    match db.reactions.find? (reactionPair sid uid) with
    | some existing =>
      if existing.type == ty then
        ({ db with reactions := db.reactions.eraseP (reactionPair sid uid) }, .removed)
      else
        ({ db with reactions :=
            (updateFirst (reactionPair sid uid) (fun r => { r with type := ty })
              db.reactions) }, .updated)
    | none =>
      let db1 := { db with
        reactions := db.reactions ++
          [{ id := db.nextId, shoutoutId := sid, userId := uid, type := ty,
             createdAt := now }],
        nextId := db.nextId + 1 }
      (addCreatorNotification db1 shout.createdById uid sid now, .created)

/-- From `src/shoutouts.py`: `comment_on_shoutout`: validation, insert (with the
content stripped), then the deduplicated creator notification. -/
def commentOnShoutout (db : DB) (sid uid : Nat) (content : List Char)
    (parentId : Option Nat) (now : PyDatetime) : Except Nat DB :=
  match db.shoutouts.find? (fun s => s.id == sid) with
  | none => .error 404
  | some shout =>
    if (pyStrip content).isEmpty then .error 400
    else
      let parentCheck : Except Nat Unit :=
        match parentId with
        | none => .ok ()
        | some pid =>
          match db.comments.find? (fun c => c.id == pid) with
          | none => .error 404
          | some parent => if parent.shoutoutId ≠ sid then .error 400 else .ok ()
      match parentCheck with
      | .error e => .error e
      | .ok _ =>
        let db1 := { db with
          comments := db.comments ++
            [{ id := db.nextId, shoutoutId := sid, userId := uid,
               content := pyStrip content, createdAt := now, parentId := parentId }],
          nextId := db.nextId + 1 }
        .ok (addCreatorNotification db1 shout.createdById uid sid now)

/-- The f-string message `delete_shoutout` hands to `_notify_admins`. -/
def shoutoutDeletedMessage (actorName : List Char) (sid : Nat)
    (content : List Char) : List Char :=
  actorName ++ (" deleted their shout-out (#".data) ++ (Nat.repr sid).data ++
    ("): \"".data) ++ truncate content 80 ++ ("\"".data)

/-- From `src/shoutouts.py`: `delete_shoutout`: permission check, audit note on a
non-admin self-delete (with NULL `shoutout_id`/`report_id`), then the manual
cascade over every dependent table before the shout-out row itself. -/
def deleteShoutout (db : DB) (sid : Nat) (user : UserRow) (now : PyDatetime) :
    Except Nat DB :=
  match db.shoutouts.find? (fun s => s.id == sid) with
  | none => .error 404
  | some shout =>
    if !user.isAdmin && shout.createdById != user.id then .error 403
    else
      let userDeleted := !user.isAdmin && shout.createdById == user.id
      let db1 :=
        if userDeleted then
          notifyAdmins db user.id ("shoutout_deleted")
            (shoutoutDeletedMessage user.fullName shout.id shout.content)
            none none now
        else db
      let reportIds := (db1.reports.filter (fun r => r.shoutoutId == sid)).map
        (fun r => r.id)
      let db2 :=
        if reportIds.isEmpty then
          { db1 with adminNotifications := (db1.adminNotifications.filter
              (fun a => !(a.shoutoutId == some sid))) }
        else
          { db1 with adminNotifications := (db1.adminNotifications.filter
              (fun a => !(a.shoutoutId == some sid ||
                (match a.reportId with
                 | some rid => reportIds.contains rid
                 | none => false)))) }
      .ok { db2 with
        reports := db2.reports.filter (fun r => !(r.shoutoutId == sid)),
        notifications := db2.notifications.filter (fun n => !(n.shoutoutId == sid)),
        comments := db2.comments.filter (fun c => !(c.shoutoutId == sid)),
        reactions := db2.reactions.filter (fun r => !(r.shoutoutId == sid)),
        attachments := db2.attachments.filter (fun a => !(a.shoutoutId == sid)),
        recipients := db2.recipients.filter (fun r => !(r.shoutoutId == sid)),
        shoutouts := db2.shoutouts.filter (fun s => !(s.id == sid)) }

/-- The f-string message `report_shoutout` hands to `_notify_admins`. -/
def reportSubmittedMessage (actorName : List Char) (sid : Nat)
    (reason : Option (List Char)) : List Char :=
  let reasonNote := match reason with
    | some r => (" Reason: ".data) ++ r
    | none => []
  actorName ++ (" reported shout-out #".data) ++ (Nat.repr sid).data ++
    (".".data) ++ reasonNote

/-- From `src/shoutouts.py`: `report_shoutout`: 404 on a missing shout-out, 400 when
the reporter authored it, 400 when the reporter already has an open report on
it, otherwise create the open report and the `report_submitted` admin note. -/
def reportShoutout (db : DB) (sid : Nat) (user : UserRow)
    (reasonRaw : Option (List Char)) (now : PyDatetime) :
    Except Nat (DB × ReportRow) :=
  match db.shoutouts.find? (fun s => s.id == sid) with
  | none => .error 404
  | some shout =>
    if shout.createdById == user.id then .error 400
    else if db.reports.any
        (fun r => r.shoutoutId == sid && r.reporterId == user.id &&
          r.status == "open") then .error 400
    else
      let reason : Option (List Char) := match reasonRaw with
        | some r => if (pyStrip r).isEmpty then none else some (pyStrip r)
        | none => none
      let report : ReportRow :=
        { id := db.nextId, shoutoutId := sid, reporterId := user.id,
          reason := reason, status := "open", createdAt := now,
          resolvedAt := none, resolvedById := none }
      let db1 := { db with reports := db.reports ++ [report], nextId := db.nextId + 1 }
      let db2 := notifyAdmins db1 user.id ("report_submitted")
        (reportSubmittedMessage user.fullName sid reason)
        (some sid) (some report.id) now
      .ok (db2, report)

/-- From `src/shoutouts.py`: `_serialize_shoutout`: every `created_at` (shout-out,
reactions, comments, attachments) goes through `_to_ist`. -/
def serializeShoutout (db : DB) (s : ShoutOutRow) : ShoutOutOut :=
  { id := s.id, content := s.content, departmentId := s.departmentId,
    createdAt := toIst1 s.createdAt,
    createdById := s.createdById,
    recipients := ((db.recipients.filter (fun r => r.shoutoutId == s.id)).map
      (fun r => r.userId)),
    reactions := ((db.reactions.filter (fun r => r.shoutoutId == s.id)).map
      (fun r => { r with createdAt := toIst1 r.createdAt })),
    comments := ((db.comments.filter (fun c => c.shoutoutId == s.id)).map
      (fun c => { c with createdAt := toIst1 c.createdAt })),
    attachments := ((db.attachments.filter (fun a => a.shoutoutId == s.id)).map
      (fun a => { a with createdAt := toIst1 a.createdAt })) }

/-- From `src/shoutouts.py`: `list_shoutouts`: optional department/sender/recipient/
date-range/attachment filters over the stored rows, `ORDER BY created_at DESC`,
offset/limit, then `_serialize_shoutout`.  SQL compares the stored (naive UTC)
datetimes, modelled by comparing `wall` values. -/
def listShoutouts (db : DB) (department sender recipient : Option Nat)
    (startDate endDate : Option PyDatetime) (hasAttachments : Option Bool)
    (limit offset : Nat) : List ShoutOutOut :=
  let q := db.shoutouts
  let q := match department with
    | none => q
    | some d => q.filter (fun s => s.departmentId == some d)
  let q := match sender with
    | none => q
    | some u => q.filter (fun s => s.createdById == u)
  let q := match recipient with
    | none => q
    | some u => q.filter (fun s =>
        db.recipients.any (fun r => r.shoutoutId == s.id && r.userId == u))
  let q := match startDate with
    | none => q
    | some sd => q.filter (fun s => sd.wall ≤ s.createdAt.wall)
  let q := match endDate with
    | none => q
    | some ed => q.filter (fun s => s.createdAt.wall ≤ ed.wall)
  let q := match hasAttachments with
    | none => q
    | some true => q.filter (fun s =>
        db.attachments.any (fun a => a.shoutoutId == s.id))
    | some false => q.filter (fun s =>
        !(db.attachments.any (fun a => a.shoutoutId == s.id)))
  (((sortDescBy (fun s => s.createdAt.wall) q).drop offset).take limit).map
    (serializeShoutout db)

end Shoutouts

namespace Notifications

/-- Module `src/notifications.py` has its own `_serialize_shoutout`, which — unlike the
one in `src/shoutouts.py` — passes every `created_at` through unchanged (no
`_to_ist` anywhere in the module). -/
def serializeShoutout (db : DB) (s : ShoutOutRow) : ShoutOutOut :=
  { id := s.id, content := s.content, departmentId := s.departmentId,
    createdAt := s.createdAt,
    createdById := s.createdById,
    recipients := ((db.recipients.filter (fun r => r.shoutoutId == s.id)).map
      (fun r => r.userId)),
    reactions := db.reactions.filter (fun r => r.shoutoutId == s.id),
    comments := db.comments.filter (fun c => c.shoutoutId == s.id),
    attachments := db.attachments.filter (fun a => a.shoutoutId == s.id) }

/-- The serialized notification shape (`schemas.NotificationOut`). -/
structure NotificationOut where
  id : Nat
  userId : Nat
  shoutout : Option ShoutOutOut
  isRead : Bool
  createdAt : PyDatetime
deriving DecidableEq

/-- From `src/notifications.py`: `get_notifications`: the current user's rows,
optionally unread only, newest first, serialized with the module's own
(conversion-free) shout-out serializer and the raw notification `created_at`.
The `shoutout` relationship is non-null by the FK; a missing row is modelled
as `none`. -/
def getNotifications (db : DB) (uid : Nat) (unreadOnly : Bool) :
    List NotificationOut :=
  let rows := db.notifications.filter (fun n =>
    n.userId == uid && (!unreadOnly || !n.isRead))
  (sortDescBy (fun n => n.createdAt.wall) rows).map (fun n =>
    { id := n.id, userId := n.userId,
      shoutout := ((db.shoutouts.find? (fun s => s.id == n.shoutoutId)).map
        (serializeShoutout db)),
      isRead := n.isRead, createdAt := n.createdAt })

end Notifications

namespace Admin

/-- From `src/admin.py`: `list_reports`: optional status filter, newest first; the
report rows are returned with their stored timestamps untouched (no `_to_ist`
anywhere in the module). -/
def listReports (db : DB) (statusFilter : Option String) : List ReportRow :=
  let q := db.reports
  let q := match statusFilter with
    | none => q
    | some st => q.filter (fun r => r.status == st)
  sortDescBy (fun r => r.createdAt.wall) q

/-- From `src/admin.py`: `resolve_report`: 404 on a missing report; an already
resolved report is returned as-is; otherwise set status/resolved_at/
resolved_by and return the updated row. -/
def resolveReport (db : DB) (rid : Nat) (admin : UserRow) (now : PyDatetime) :
    Except Nat (DB × ReportRow) :=
  match db.reports.find? (fun r => r.id == rid) with
  | none => .error 404
  | some report =>
    if report.status == "resolved" then .ok (db, report)
    else
      let report' := { report with
        status := "resolved", resolvedAt := some now, resolvedById := some admin.id }
      .ok ({ db with
              reports := (updateFirst (fun r => r.id == rid) (fun _ => report')
                db.reports) },
           report')

end Admin

/-- An interaction event on a fixed shout-out: a reaction submission or a
comment, by some user, as claimed for the notification dedup invariant. -/
inductive SEvent
  | react (uid : Nat) (ty : String)
  | comment (uid : Nat) (content : List Char) (parentId : Option Nat)
deriving DecidableEq

/-- Run one event through the corresponding handler; a handler error leaves
the store unchanged (FastAPI raises before any insert on those paths). -/
def applyEvent (sid : Nat) (now : PyDatetime) (db : DB) : SEvent → DB
  | .react uid ty => (Shoutouts.reactToShoutout db sid uid ty now).1
  | .comment uid content parentId =>
    match Shoutouts.commentOnShoutout db sid uid content parentId now with
    | .ok db' => db'
    | .error _ => db

/-- Run a sequence of reaction/comment events against one shout-out. -/
def applyEvents (sid : Nat) (now : PyDatetime) (db : DB) : List SEvent → DB
  | [] => db
  | e :: es => applyEvents sid now (applyEvent sid now db e) es

/-- Number of Notification rows for the `(user, shoutout)` pair. -/
def notifCount (db : DB) (u sid : Nat) : Nat :=
  db.notifications.countP (fun n => n.userId == u && n.shoutoutId == sid)

/-! Concrete fixtures used to evaluate the handlers on explicit inputs. -/

/-- A non-admin user, creator of the fixture shout-out. -/
def userA : UserRow := { id := 1, fullName := "Alice".data, isAdmin := false,
                         departmentId := none }

/-- A second non-admin user. -/
def userB : UserRow := { id := 2, fullName := "Bob".data, isAdmin := false,
                         departmentId := none }

/-- An admin user who created nothing. -/
def userC : UserRow := { id := 3, fullName := "Cara".data, isAdmin := true,
                         departmentId := none }

/-- The fixture shout-out, created by `userA`, stored with a naive timestamp. -/
def shoutA : ShoutOutRow := { id := 5, content := "hi".data,
                              createdAt := { wall := 0, tzOffset := none },
                              createdById := 1, departmentId := none }

/-- A store holding just `shoutA`. -/
def baseDb : DB :=
  { shoutouts := [shoutA], recipients := [], reactions := [], comments := [],
    attachments := [], reports := [], notifications := [],
    adminNotifications := [], nextId := 6 }

/-- The "like" reaction of `userB` on `shoutA`. -/
def likeReaction : ReactionRow :=
  { id := 4, shoutoutId := 5, userId := 2, type := "like",
    createdAt := { wall := 0, tzOffset := none } }

/-- State `baseDb` after `userB` reacted "like" to `shoutA`. -/
def reactDb : DB := { baseDb with reactions := [likeReaction] }

/-- State `baseDb` with an open report by `userB` against `shoutA`. -/
def openReportDb : DB :=
  { baseDb with
    reports := [{ id := 3, shoutoutId := 5, reporterId := 2, reason := none,
                  status := "open", createdAt := { wall := 0, tzOffset := none },
                  resolvedAt := none, resolvedById := none }] }

/-- State `baseDb` with that report already resolved by `userC`. -/
def resolvedReportDb : DB :=
  { baseDb with
    reports := [{ id := 3, shoutoutId := 5, reporterId := 2, reason := none,
                  status := "resolved",
                  createdAt := { wall := 0, tzOffset := none },
                  resolvedAt := some { wall := 0, tzOffset := none },
                  resolvedById := some 3 }] }

/-- A store where `shoutA` has one dependent row in every table, plus a
notification row for `userB`. -/
def fullDb : DB :=
  { shoutouts := [shoutA],
    recipients := [{ shoutoutId := 5, userId := 2 }],
    reactions := [{ id := 4, shoutoutId := 5, userId := 2, type := "like",
                    createdAt := { wall := 0, tzOffset := none } }],
    comments := [{ id := 7, shoutoutId := 5, userId := 2, content := "yo".data,
                   createdAt := { wall := 0, tzOffset := none },
                   parentId := none }],
    attachments := [{ id := 8, shoutoutId := 5, fileUrl := "u", fileName := "f",
                      fileType := "image/png",
                      createdAt := { wall := 0, tzOffset := none } }],
    reports := [{ id := 3, shoutoutId := 5, reporterId := 2, reason := none,
                  status := "open", createdAt := { wall := 0, tzOffset := none },
                  resolvedAt := none, resolvedById := none }],
    notifications := [{ id := 9, userId := 2, shoutoutId := 5, isRead := false,
                        createdAt := { wall := 0, tzOffset := none } }],
    adminNotifications := [{ id := 10, eventType := "report_submitted",
                             message := "m".data,
                             createdAt := { wall := 0, tzOffset := none },
                             actorId := 2, shoutoutId := some 5,
                             reportId := some 3 }],
    nextId := 11 }

/-- The store left after `userA` deletes the fixture shout-out from `fullDb`
(the Bad-path default value is never used: the delete succeeds). -/
def deletedFullDb : DB :=
  (Shoutouts.deleteShoutout fullDb 5 userA
    { wall := 0, tzOffset := none }).toOption.getD fullDb

/-! Helper lemmas about the list and string primitives. -/

theorem dropWhile_eq_self_of_forall (p : α → Bool) (l : List α)
    (h : ∀ c ∈ l, p c = false) : l.dropWhile p = l := by
  cases l with
  | nil => rfl
  | cons x xs =>
    simp [List.dropWhile_cons, h x (List.mem_cons_self x xs)]

theorem pyRstrip_eq_self (s : List Char) (h : ∀ c ∈ s, pyIsSpace c = false) :
    pyRstrip s = s := by
  unfold pyRstrip
  rw [dropWhile_eq_self_of_forall]
  · exact List.reverse_reverse s
  · intro c hc
    exact h c (List.mem_reverse.mp hc)

theorem pyStrip_eq_self (s : List Char) (h : ∀ c ∈ s, pyIsSpace c = false) :
    pyStrip s = s := by
  unfold pyStrip pyLstrip
  rw [dropWhile_eq_self_of_forall _ _ h]
  exact pyRstrip_eq_self s h

theorem truncate_eq_self (s : List Char) (limit : Nat)
    (hstrip : pyStrip s = s) (hlen : s.length ≤ limit) :
    truncate s limit = s := by
  unfold truncate
  rw [hstrip]
  simp [hlen]

theorem filter_eraseP_eq_nil (p : α → Bool) (l : List α) (r0 : α)
    (h : l.filter p = [r0]) : (l.eraseP p).filter p = [] := by
  induction l with
  | nil => simp at h
  | cons x xs ih =>
    by_cases hp : p x
    · rw [List.filter_cons_of_pos hp] at h
      have hx : xs.filter p = [] := by
        have := List.cons.injEq x (xs.filter p) r0 [] ▸ h
        exact (List.cons.inj h).2
      simp [List.eraseP_cons, hp, hx]
    · rw [List.filter_cons_of_neg hp] at h
      simp [List.eraseP_cons, hp, List.filter_cons_of_neg hp, ih h]

theorem find?_of_filter_singleton (p : α → Bool) (l : List α) (r0 : α)
    (h : l.filter p = [r0]) : l.find? p = some r0 := by
  induction l with
  | nil => simp at h
  | cons x xs ih =>
    by_cases hp : p x
    · rw [List.filter_cons_of_pos hp] at h
      rw [List.find?_cons_of_pos _ hp]
      exact congrArg some (List.cons.inj h).1
    · rw [List.filter_cons_of_neg hp] at h
      rw [List.find?_cons_of_neg _ hp]
      exact ih h

theorem filter_updateFirst (p : α → Bool) (f : α → α)
    (hf : ∀ x, p (f x) = p x) (l : List α) (r0 : α)
    (h : l.filter p = [r0]) : (updateFirst p f l).filter p = [f r0] := by
  induction l with
  | nil => simp at h
  | cons x xs ih =>
    by_cases hp : p x
    · rw [List.filter_cons_of_pos hp] at h
      obtain ⟨hx, hxs⟩ := List.cons.inj h
      subst hx
      simp [updateFirst, hp, List.filter_cons, hf, hxs]
    · rw [List.filter_cons_of_neg hp] at h
      simp [updateFirst, hp, List.filter_cons_of_neg hp, ih h]

theorem length_updateFirst (p : α → Bool) (f : α → α) (l : List α) :
    (updateFirst p f l).length = l.length := by
  induction l with
  | nil => rfl
  | cons x xs ih =>
    by_cases hp : p x <;> simp [updateFirst, hp, ih]

theorem countP_updateFirst (p : α → Bool) (f : α → α)
    (hf : ∀ x, p (f x) = p x) (l : List α) :
    (updateFirst p f l).countP p = l.countP p := by
  induction l with
  | nil => rfl
  | cons x xs ih =>
    by_cases hp : p x <;> simp [updateFirst, hp, List.countP_cons, hf, ih]

theorem countP_eraseP_le (p : α → Bool) (l : List α) :
    (l.eraseP p).countP p ≤ l.countP p := by
  induction l with
  | nil => simp
  | cons x xs ih =>
    by_cases hp : p x <;>
      simp [List.eraseP_cons, hp, List.countP_cons, ih]

theorem mkNotifs_length (sid : Nat) (now : PyDatetime) (nid : Nat)
    (l : List Nat) : (mkNotifs sid now nid l).length = l.length := by
  induction l generalizing nid with
  | nil => rfl
  | cons x xs ih => simp [mkNotifs, ih]

theorem mkNotifs_map_userId (sid : Nat) (now : PyDatetime) (nid : Nat)
    (l : List Nat) : (mkNotifs sid now nid l).map (fun n => n.userId) = l := by
  induction l generalizing nid with
  | nil => rfl
  | cons x xs ih => simp [mkNotifs, ih]

theorem mkNotifs_mem (sid : Nat) (now : PyDatetime) (nid : Nat) (l : List Nat)
    (n : NotificationRow) (h : n ∈ mkNotifs sid now nid l) :
    n.shoutoutId = sid ∧ n.userId ∈ l := by
  induction l generalizing nid with
  | nil => simp [mkNotifs] at h
  | cons x xs ih =>
    simp only [mkNotifs, List.mem_cons] at h
    cases h with
    | inl h => subst h; simp
    | inr h =>
      obtain ⟨h1, h2⟩ := ih (nid + 1) h
      exact ⟨h1, List.mem_cons_of_mem x h2⟩

theorem mem_insertDescBy (key : α → Int) (x a : α) (l : List α) :
    a ∈ insertDescBy key x l ↔ a = x ∨ a ∈ l := by
  induction l with
  | nil => simp [insertDescBy]
  | cons y ys ih =>
    by_cases hk : key y ≤ key x
    · simp [insertDescBy, hk, List.mem_cons]
    · simp [insertDescBy, hk, List.mem_cons, ih]
      tauto

theorem mem_sortDescBy (key : α → Int) (a : α) (l : List α) :
    a ∈ sortDescBy key l ↔ a ∈ l := by
  induction l with
  | nil => simp [sortDescBy]
  | cons x xs ih =>
    simp [sortDescBy, mem_insertDescBy, ih, List.mem_cons]

theorem length_insertDescBy (key : α → Int) (x : α) (l : List α) :
    (insertDescBy key x l).length = l.length + 1 := by
  induction l with
  | nil => rfl
  | cons y ys ih =>
    by_cases hk : key y ≤ key x <;> simp [insertDescBy, hk, ih]

theorem length_sortDescBy (key : α → Int) (l : List α) :
    (sortDescBy key l).length = l.length := by
  induction l with
  | nil => rfl
  | cons x xs ih => simp [sortDescBy, length_insertDescBy, ih]

theorem length_dedup_filter_ne (l : List Nat) (a : Nat) :
    (l.dedup.filter (fun x => x != a)).length = (l.toFinset \ {a}).card := by
  classical
  have hnd : (l.dedup.filter (fun x => x != a)).Nodup :=
    (List.nodup_dedup l).filter _
  have hcard : (l.dedup.filter (fun x => x != a)).toFinset.card =
      (l.dedup.filter (fun x => x != a)).length :=
    List.toFinset_card_of_nodup hnd
  have hset : (l.dedup.filter (fun x => x != a)).toFinset = l.toFinset \ {a} := by
    ext x
    simp [List.mem_toFinset, List.mem_filter, List.mem_dedup, bne_iff_ne,
      Finset.mem_sdiff]
  rw [← hcard, hset]

/-- Appending the creator notification keeps every pair count at ≤ 1, because
the handler only appends it after `find?` returned no row for the pair. -/
theorem append_creator_notif_countP_le (notifs : List NotificationRow)
    (creator sid newId : Nat) (now : PyDatetime) (u sid' : Nat)
    (h : notifs.countP (fun n => n.userId == u && n.shoutoutId == sid') ≤ 1)
    (hnone : notifs.find?
      (fun n => n.userId == creator && n.shoutoutId == sid) = none) :
    (notifs ++
        [({ id := newId, userId := creator, shoutoutId := sid,
            isRead := false, createdAt := now } : NotificationRow)]).countP
      (fun n => n.userId == u && n.shoutoutId == sid') ≤ 1 := by
  rw [List.countP_append]
  by_cases hp : ((creator == u) && (sid == sid')) = true
  · obtain ⟨hu, hs⟩ : creator = u ∧ sid = sid' := by
      simpa [Bool.and_eq_true, beq_iff_eq] using hp
    subst hu
    subst hs
    have h0 : notifs.countP
        (fun n => n.userId == creator && n.shoutoutId == sid) = 0 :=
      List.countP_eq_zero.mpr (fun a ha => List.find?_eq_none.mp hnone a ha)
    simp [h0, List.countP_cons, hp]
  · have hz : List.countP (fun n => n.userId == u && n.shoutoutId == sid')
        [({ id := newId, userId := creator, shoutoutId := sid,
             isRead := false, createdAt := now } : NotificationRow)] = 0 := by
      simp [List.countP_cons]
      simpa using hp
    omega

theorem addCreatorNotification_notifCount_le (db : DB)
    (creator actorId sid : Nat) (now : PyDatetime) (u sid' : Nat)
    (h : notifCount db u sid' ≤ 1) :
    notifCount (Shoutouts.addCreatorNotification db creator actorId sid now)
      u sid' ≤ 1 := by
  unfold Shoutouts.addCreatorNotification
  by_cases hc : creator = actorId
  · simpa [hc, notifCount] using h
  · rw [if_pos hc]
    cases hnf : db.notifications.find?
        (fun n => n.userId == creator && n.shoutoutId == sid) with
    | some found => simpa [notifCount] using h
    | none =>
      dsimp only [notifCount]
      exact append_creator_notif_countP_le db.notifications
        creator sid db.nextId now u sid' h hnf

theorem addCreatorNotification_reactions (db : DB)
    (creator actorId sid : Nat) (now : PyDatetime) :
    (Shoutouts.addCreatorNotification db creator actorId sid now).reactions =
      db.reactions := by
  unfold Shoutouts.addCreatorNotification
  by_cases hc : creator = actorId
  · simp [hc]
  · rw [if_pos hc]
    cases hnf : db.notifications.find?
        (fun n => n.userId == creator && n.shoutoutId == sid) with
    | some found => rfl
    | none => rfl

theorem react_notifCount_le (db : DB) (sid uid : Nat) (ty : String)
    (now : PyDatetime) (u sid' : Nat) (h : notifCount db u sid' ≤ 1) :
    notifCount (Shoutouts.reactToShoutout db sid uid ty now).1 u sid' ≤ 1 := by
  unfold Shoutouts.reactToShoutout
  cases hfind : db.shoutouts.find? (fun s => s.id == sid) with
  | none => simpa [notifCount] using h
  | some shout =>
    cases hr : db.reactions.find? (Shoutouts.reactionPair sid uid) with
    | some existing =>
      by_cases hty : existing.type == ty
      · simpa [hty, notifCount] using h
      · simpa [hty, notifCount] using h
    | none =>
      exact addCreatorNotification_notifCount_le _ shout.createdById uid sid
        now u sid' h

theorem comment_notifCount_le (db : DB) (sid uid : Nat) (content : List Char)
    (parentId : Option Nat) (now : PyDatetime) (u sid' : Nat)
    (h : notifCount db u sid' ≤ 1) :
    notifCount (match Shoutouts.commentOnShoutout db sid uid content parentId now
      with
      | .ok db' => db'
      | .error _ => db) u sid' ≤ 1 := by
  unfold Shoutouts.commentOnShoutout
  cases hfind : db.shoutouts.find? (fun s => s.id == sid) with
  | none => simpa [notifCount] using h
  | some shout =>
    by_cases hempty : (pyStrip content).isEmpty
    · simpa [hempty, notifCount] using h
    · cases parentId with
      | none =>
        simp only [hempty]
        exact addCreatorNotification_notifCount_le _ shout.createdById uid sid
          now u sid' h
      | some pid =>
        cases hpp : db.comments.find? (fun c => c.id == pid) with
        | none => simpa [hempty, hpp, notifCount] using h
        | some parent =>
          by_cases hps : parent.shoutoutId = sid
          · simp only [hempty, hpp]
            simp only [hps]
            simp only [ne_eq, not_true_eq_false, if_false]
            exact addCreatorNotification_notifCount_le _ shout.createdById uid
              sid now u sid' h
          · simpa [hempty, hpp, hps, notifCount] using h

theorem applyEvent_notifCount_le (sid : Nat) (now : PyDatetime) (db : DB)
    (e : SEvent) (u sid' : Nat) (h : notifCount db u sid' ≤ 1) :
    notifCount (applyEvent sid now db e) u sid' ≤ 1 := by
  cases e with
  | react uid ty => exact react_notifCount_le db sid uid ty now u sid' h
  | comment uid content parentId =>
    exact comment_notifCount_le db sid uid content parentId now u sid' h

/-! Claim theorems. -/

/-- C7 is the spec's intent but not what the code does: the shout-out reader
converts every timestamp to the display zone, while the notifications reader
(`src/notifications.py`, with its own conversion-free serializer) and the
admin report listing (`src/admin.py`) return the stored naive UTC timestamps
untouched.  Evaluated at a store whose timestamps are naive wall time 0: the
converted value would be 330 minutes (05:30 UTC+5:30). -/
theorem reader_endpoints_skip_ist_conversion :
    ((Notifications.getNotifications fullDb 2 false).map
        (fun n => n.createdAt) = [{ wall := 0, tzOffset := none }]) ∧
    ((Notifications.getNotifications fullDb 2 false).map
        (fun n => n.shoutout.map (fun s => s.createdAt)) =
      [some { wall := 0, tzOffset := none }]) ∧
    toIst1 { wall := 0, tzOffset := none } =
      { wall := 330, tzOffset := some 330 } ∧
    ({ wall := 0, tzOffset := none } : PyDatetime) ≠
      { wall := 330, tzOffset := some 330 } ∧
    (Shoutouts.serializeShoutout fullDb shoutA).createdAt =
      { wall := 330, tzOffset := some 330 } ∧
    ((Admin.listReports resolvedReportDb none).map
        (fun r => (r.createdAt, r.resolvedAt)) =
      [({ wall := 0, tzOffset := none }, some { wall := 0, tzOffset := none })])
    := by
  decide

/-- C1: the notification-dedup invariant — starting from any store in which a
user has at most one Notification row for a given shout-out, any sequence of
reaction and comment events on that shout-out leaves at most one Notification
row for that pair, because both handlers insert the creator notification only
after checking that none exists. -/
theorem notification_dedup (db : DB) (sid : Nat) (now : PyDatetime) (u : Nat)
    (events : List SEvent) (h : notifCount db u sid ≤ 1) :
    notifCount (applyEvents sid now db events) u sid ≤ 1 := by
  induction events generalizing db with
  | nil => exact h
  | cons e es ih =>
    exact ih (applyEvent sid now db e)
      (applyEvent_notifCount_le sid now db e u sid h)

/-- Witness for C1: a reaction and two comments by non-creators, plus a comment
by the creator, on the fixture shout-out leave exactly ≤ 1 notification for
the creator. -/
theorem notification_dedup_witness :
    notifCount (applyEvents 5 { wall := 0, tzOffset := none } baseDb
      [SEvent.react 2 "like", SEvent.comment 2 ("yo".data) none,
       SEvent.comment 3 ("hey".data) none, SEvent.comment 1 ("me".data) none])
      1 5 ≤ 1 :=
  notification_dedup baseDb 5 { wall := 0, tzOffset := none } 1
    [SEvent.react 2 "like", SEvent.comment 2 ("yo".data) none,
     SEvent.comment 3 ("hey".data) none, SEvent.comment 1 ("me".data) none]
    (by decide)

/-- C5 is false as stated: `_truncate` strips the whole string first, so the
two-character string consisting of a space and a letter — well under the
80-character limit — is not left unchanged. -/
theorem truncate_claim_counterexample :
    (" a".data.length ≤ 80) ∧ truncate (" a".data) 80 ≠ " a".data := by
  decide

/-- C5 (amended): `_truncate` first strips surrounding whitespace.  A string
that is already stripped and has at most 80 characters is returned unchanged;
a 90-character whitespace-free string becomes its first 77 characters plus
"..." (80 characters in all); whenever the stripped string exceeds the limit
the kept prefix is rstripped before the ellipsis marker is appended; and the
marker is appended only when truncation actually occurred (the short case
returns the stripped string with no marker). -/
theorem truncate_spec :
    (∀ s : List Char, pyStrip s = s → s.length ≤ 80 → truncate s 80 = s) ∧
    (∀ s : List Char, s.length = 90 → (∀ c ∈ s, pyIsSpace c = false) →
      truncate s 80 = s.take 77 ++ ['.', '.', '.'] ∧
      (truncate s 80).length = 80) ∧
    (∀ s : List Char, 80 < (pyStrip s).length →
      truncate s 80 = pyRstrip ((pyStrip s).take 77) ++ ['.', '.', '.']) ∧
    (∀ s : List Char, (pyStrip s).length ≤ 80 → truncate s 80 = pyStrip s) := by
  refine ⟨fun s h1 h2 => truncate_eq_self s 80 h1 h2, ?_, ?_, ?_⟩
  · intro s hlen hws
    have hstrip : pyStrip s = s := pyStrip_eq_self s hws
    have htake : pyRstrip (s.take 77) = s.take 77 :=
      pyRstrip_eq_self _ (fun c hc => hws c (List.mem_of_mem_take hc))
    have heq : truncate s 80 = s.take 77 ++ ['.', '.', '.'] := by
      unfold truncate
      simp [hstrip, hlen, htake]
    refine ⟨heq, ?_⟩
    rw [heq]
    simp [List.length_take, hlen]
  · intro s hlong
    unfold truncate
    rw [if_neg (by omega)]
  · intro s hshort
    unfold truncate
    rw [if_pos hshort]

/-- Witness for C5 (amended), at two concrete strings. -/
theorem truncate_spec_witness :
    truncate ("abc".data) 80 = "abc".data ∧
    truncate (List.replicate 90 'x') 80 =
      (List.replicate 90 'x').take 77 ++ ['.', '.', '.'] :=
  ⟨truncate_spec.1 ("abc".data) (by decide) (by decide),
   (truncate_spec.2.1 (List.replicate 90 'x') (by decide) (by decide)).1⟩

/-- C10: resolving a report that is already resolved returns it unchanged —
the handler neither touches the store nor the report's status, resolvedAt or
resolvedBy fields, so the first resolver wins. -/
theorem resolve_report_idempotent (db : DB) (rid : Nat) (admin : UserRow)
    (now : PyDatetime) (r : ReportRow)
    (hfind : db.reports.find? (fun x => x.id == rid) = some r)
    (hres : r.status = "resolved") :
    Admin.resolveReport db rid admin now = .ok (db, r) := by
  unfold Admin.resolveReport
  rw [hfind]
  simp [hres]

/-- C6: a stored timestamp without timezone information is treated as UTC and
converted to the fixed UTC+5:30 display zone — naive midnight of any day
serializes as 05:30 of the same day — and the date filtering of shout-out
listings compares the stored value, not the converted one: every listed item
stems from a stored row whose raw `created_at` lies in the requested range,
every stored row in range is listed, and the displayed `created_at` is the
converted value. -/
theorem ist_conversion_and_filtering :
    (∀ w : Int, toIst1 { wall := w, tzOffset := none } =
      { wall := w + ISTOffset, tzOffset := some ISTOffset }) ∧
    (∀ day : Int, toIst1 { wall := day * 1440, tzOffset := none } =
      { wall := day * 1440 + 5 * 60 + 30, tzOffset := some ISTOffset }) ∧
    (∀ (db : DB) (sd ed : PyDatetime) (out : ShoutOutOut),
      out ∈ Shoutouts.listShoutouts db none none none (some sd) (some ed) none
        db.shoutouts.length 0 →
      ∃ s ∈ db.shoutouts, sd.wall ≤ s.createdAt.wall ∧
        s.createdAt.wall ≤ ed.wall ∧
        out = Shoutouts.serializeShoutout db s ∧
        out.createdAt = toIst1 s.createdAt) ∧
    (∀ (db : DB) (sd ed : PyDatetime) (s : ShoutOutRow),
      s ∈ db.shoutouts → sd.wall ≤ s.createdAt.wall →
      s.createdAt.wall ≤ ed.wall →
      Shoutouts.serializeShoutout db s ∈
        Shoutouts.listShoutouts db none none none (some sd) (some ed) none
          db.shoutouts.length 0) := by
  refine ⟨?_, ?_, ?_, ?_⟩
  · intro w
    simp [toIst1]
  · intro day
    simp [toIst1, ISTOffset]
    omega
  · intro db sd ed out hmem
    simp only [Shoutouts.listShoutouts, List.drop_zero] at hmem
    rw [List.mem_map] at hmem
    obtain ⟨s, hs, hout⟩ := hmem
    have hs2 := mem_sortDescBy (fun x => x.createdAt.wall) s _ |>.mp
      (List.mem_of_mem_take hs)
    rw [List.mem_filter, List.mem_filter] at hs2
    obtain ⟨⟨hmem0, hsd⟩, hed⟩ := hs2
    exact ⟨s, hmem0, by simpa using hsd, by simpa using hed, hout.symm,
      by rw [← hout]; rfl⟩
  · intro db sd ed s hmem hsd hed
    simp only [Shoutouts.listShoutouts, List.drop_zero]
    have hlenf : ((db.shoutouts.filter
        (fun x => decide (sd.wall ≤ x.createdAt.wall))).filter
        (fun x => decide (x.createdAt.wall ≤ ed.wall))).length ≤
        db.shoutouts.length :=
      le_trans (List.length_filter_le _ _) (List.length_filter_le _ _)
    have hsort : (sortDescBy (fun x => x.createdAt.wall)
        ((db.shoutouts.filter (fun x => decide (sd.wall ≤ x.createdAt.wall))).filter
          (fun x => decide (x.createdAt.wall ≤ ed.wall)))).length ≤
        db.shoutouts.length := by
      rw [length_sortDescBy]
      exact hlenf
    rw [List.take_of_length_le hsort]
    apply List.mem_map_of_mem
    rw [mem_sortDescBy, List.mem_filter, List.mem_filter]
    exact ⟨⟨hmem, by simpa using hsd⟩, by simpa using hed⟩

/-- Witness for C6: the fixture shout-out, stored at naive wall time 0, is
listed for the range [-10, 10] and serialized with the converted timestamp. -/
theorem ist_conversion_and_filtering_witness :
    Shoutouts.serializeShoutout baseDb shoutA ∈
      Shoutouts.listShoutouts baseDb none none none
        (some { wall := -10, tzOffset := none })
        (some { wall := 10, tzOffset := none }) none
        baseDb.shoutouts.length 0 :=
  ist_conversion_and_filtering.2.2.2 baseDb
    { wall := -10, tzOffset := none } { wall := 10, tzOffset := none }
    shoutA (by decide) (by decide) (by decide)

/-- C2: creating a shout-out with recipient list `rids` (duplicates allowed)
by `actor` creates exactly one Notification per element of the deduplicated
set minus the actor — `|set(rids) minus the actor's id|` rows, each for a
distinct recipient drawn from `rids`, none for the actor — and creates no
AdminNotification. -/
theorem create_shoutout_notifications (db : DB) (actor : UserRow)
    (content : List Char) (dept : Option Nat) (rids : List Nat)
    (now : PyDatetime) (h : rids ≠ []) :
    ∃ db' s, Shoutouts.createShoutout db actor content dept rids now =
        .ok (db', s) ∧
      ∃ news, db'.notifications = db.notifications ++ news ∧
        news.length = (rids.toFinset \ {actor.id}).card ∧
        (news.map (fun n => n.userId)).Nodup ∧
        (∀ n ∈ news, n.shoutoutId = s.id ∧ n.userId ≠ actor.id ∧
          n.userId ∈ rids) ∧
        db'.adminNotifications = db.adminNotifications := by
  cases rids with
  | nil => exact absurd rfl h
  | cons r0 rest =>
    refine ⟨_, _, rfl, mkNotifs db.nextId now (db.nextId + 1)
      ((r0 :: rest).dedup.filter (fun rid => rid != actor.id)), rfl, ?_, ?_,
      ?_, rfl⟩
    · rw [mkNotifs_length]
      exact length_dedup_filter_ne (r0 :: rest) actor.id
    · rw [mkNotifs_map_userId]
      exact (List.nodup_dedup _).filter _
    · intro n hn
      obtain ⟨h1, h2⟩ := mkNotifs_mem _ _ _ _ _ hn
      rw [List.mem_filter] at h2
      refine ⟨h1, ?_, List.mem_dedup.mp h2.1⟩
      simpa using h2.2

/-- Witness for C2: recipient list `[1, 1, 2]` posted by `userB` (id 2) yields
one notification (for user 1), none for the actor, and no admin notification. -/
theorem create_shoutout_notifications_witness :
    ([1, 1, 2] : List Nat) ≠ [] ∧
    (∃ db' s, Shoutouts.createShoutout baseDb userB ("x".data) none [1, 1, 2]
        { wall := 0, tzOffset := none } = .ok (db', s) ∧
      ∃ news, db'.notifications = baseDb.notifications ++ news ∧
        news.length = (([1, 1, 2] : List Nat).toFinset \ {userB.id}).card ∧
        (news.map (fun n => n.userId)).Nodup ∧
        (∀ n ∈ news, n.shoutoutId = s.id ∧ n.userId ≠ userB.id ∧
          n.userId ∈ [1, 1, 2]) ∧
        db'.adminNotifications = baseDb.adminNotifications) :=
  ⟨by decide,
   create_shoutout_notifications baseDb userB ("x".data) none [1, 1, 2]
     { wall := 0, tzOffset := none } (by decide)⟩

/-- C8: when a user already has exactly one reaction row on a shout-out,
submitting a different kind updates that row in place (same row id, row count
unchanged), submitting the same kind deletes the row, and in general the
handler never lets a `(shoutout, user)` pair exceed one reaction row. -/
theorem reaction_upsert :
    (∀ (db : DB) (sid uid : Nat) (ty : String) (now : PyDatetime)
        (shout : ShoutOutRow) (r0 : ReactionRow),
      db.shoutouts.find? (fun s => s.id == sid) = some shout →
      db.reactions.filter (Shoutouts.reactionPair sid uid) = [r0] →
      ((ty ≠ r0.type →
          (Shoutouts.reactToShoutout db sid uid ty now).2 =
            Shoutouts.ReactOutcome.updated ∧
          (Shoutouts.reactToShoutout db sid uid ty now).1.reactions.filter
            (Shoutouts.reactionPair sid uid) = [{ r0 with type := ty }] ∧
          (Shoutouts.reactToShoutout db sid uid ty now).1.reactions.length =
            db.reactions.length) ∧
        (ty = r0.type →
          (Shoutouts.reactToShoutout db sid uid ty now).2 =
            Shoutouts.ReactOutcome.removed ∧
          (Shoutouts.reactToShoutout db sid uid ty now).1.reactions.filter
            (Shoutouts.reactionPair sid uid) = []))) ∧
    (∀ (db : DB) (sid uid : Nat) (ty : String) (now : PyDatetime),
      db.reactions.countP (Shoutouts.reactionPair sid uid) ≤ 1 →
      (Shoutouts.reactToShoutout db sid uid ty now).1.reactions.countP
        (Shoutouts.reactionPair sid uid) ≤ 1) := by
  constructor
  · intro db sid uid ty now shout r0 hfind hfilter
    have hfd : db.reactions.find? (Shoutouts.reactionPair sid uid) = some r0 :=
      find?_of_filter_singleton _ _ _ hfilter
    constructor
    · intro hty
      have hbe : (r0.type == ty) = false :=
        beq_eq_false_iff_ne.mpr (fun e => hty e.symm)
      simp only [Shoutouts.reactToShoutout, hfind, hfd, hbe,
        Bool.false_eq_true, if_false]
      exact ⟨trivial,
        filter_updateFirst _ (fun r => { r with type := ty }) (fun x => rfl)
          db.reactions r0 hfilter,
        length_updateFirst _ _ _⟩
    · intro hty
      have hbe : (r0.type == ty) = true := beq_iff_eq.mpr hty.symm
      simp only [Shoutouts.reactToShoutout, hfind, hfd, hbe, if_true]
      exact ⟨trivial, filter_eraseP_eq_nil _ _ _ hfilter⟩
  · intro db sid uid ty now h
    cases hfind : db.shoutouts.find? (fun s => s.id == sid) with
    | none =>
      simp only [Shoutouts.reactToShoutout, hfind]
      exact h
    | some shout =>
      cases hfd : db.reactions.find? (Shoutouts.reactionPair sid uid) with
      | some existing =>
        by_cases hbe : (existing.type == ty) = true
        · simp only [Shoutouts.reactToShoutout, hfind, hfd, hbe, if_true]
          exact le_trans (countP_eraseP_le _ _) h
        · have hbe' : (existing.type == ty) = false := by simpa using hbe
          simp only [Shoutouts.reactToShoutout, hfind, hfd, hbe',
            Bool.false_eq_true, if_false]
          rw [countP_updateFirst (Shoutouts.reactionPair sid uid)
            (fun r => { r with type := ty }) (fun x => rfl)]
          exact h
      | none =>
        have h0 : db.reactions.countP (Shoutouts.reactionPair sid uid) = 0 :=
          List.countP_eq_zero.mpr (fun a ha => List.find?_eq_none.mp hfd a ha)
        simp only [Shoutouts.reactToShoutout, hfind, hfd,
          addCreatorNotification_reactions]
        simp [List.countP_append, List.countP_cons, h0, Shoutouts.reactionPair]

/-- Witness for C8: on the fixture store where `userB` has one "like" on the
shout-out, a "clap" updates the row in place and a second "like" removes it. -/
theorem reaction_upsert_witness :
    (Shoutouts.reactToShoutout reactDb 5 2 "clap"
      { wall := 1, tzOffset := none }).2 = Shoutouts.ReactOutcome.updated ∧
    (Shoutouts.reactToShoutout reactDb 5 2 "clap"
      { wall := 1, tzOffset := none }).1.reactions.filter
        (Shoutouts.reactionPair 5 2) = [{ likeReaction with type := "clap" }] ∧
    (Shoutouts.reactToShoutout reactDb 5 2 "like"
      { wall := 1, tzOffset := none }).2 = Shoutouts.ReactOutcome.removed :=
  ⟨((reaction_upsert.1 reactDb 5 2 "clap" { wall := 1, tzOffset := none }
      shoutA likeReaction (by rfl) (by rfl)).1 (by decide)).1,
   ((reaction_upsert.1 reactDb 5 2 "clap" { wall := 1, tzOffset := none }
      shoutA likeReaction (by rfl) (by rfl)).1 (by decide)).2.1,
   ((reaction_upsert.1 reactDb 5 2 "like" { wall := 1, tzOffset := none }
      shoutA likeReaction (by rfl) (by rfl)).2 (by rfl)).1⟩

/-- C3 is false as stated in one respect: the audit AdminNotification produced
by a non-admin self-delete does not reference the shout-out's id in its
`shoutout_id` column — the handler passes no `shoutout_id` (otherwise the
cascade would delete the fresh audit row), so the column is NULL and only the
message text mentions the id.  Evaluated: deleting fixture shout-out 5. -/
theorem shoutout_delete_audit_counterexample :
    (Except.toOption (Shoutouts.deleteShoutout baseDb 5 userA
        { wall := 0, tzOffset := none })).map
      (fun d => d.adminNotifications.map (fun a => a.shoutoutId)) =
      some [none] ∧
    some [(none : Option Nat)] ≠ some [some 5] := by
  decide

/-- C3 (amended): a non-admin deleting their own shout-out produces exactly one
AdminNotification with eventType `shoutout_deleted` whose message contains the
actor's name, the 80-character-truncated content snippet and the shout-out id
rendered in the text, while the row's `shoutout_id` column is left NULL; an
admin deleting a shout-out they did not create produces no AdminNotification.
(The message hypotheses state that the built message is already stripped and
within the 500-character admin-message bound, which rules out the outer
truncation altering it.) -/
theorem shoutout_delete_audit :
    (∀ (db : DB) (sid : Nat) (user : UserRow) (now : PyDatetime)
        (shout : ShoutOutRow),
      db.shoutouts.find? (fun s => s.id == sid) = some shout →
      user.isAdmin = false →
      shout.createdById = user.id →
      db.adminNotifications = [] →
      pyStrip (Shoutouts.shoutoutDeletedMessage user.fullName shout.id
          shout.content) =
        Shoutouts.shoutoutDeletedMessage user.fullName shout.id shout.content →
      (Shoutouts.shoutoutDeletedMessage user.fullName shout.id
          shout.content).length ≤ 500 →
      (∃ db', Shoutouts.deleteShoutout db sid user now = .ok db' ∧
        db'.adminNotifications =
          [{ id := db.nextId, eventType := "shoutout_deleted",
             message := Shoutouts.shoutoutDeletedMessage user.fullName
               shout.id shout.content,
             createdAt := now, actorId := user.id, shoutoutId := none,
             reportId := none }]) ∧
      (∃ l₁ l₂, Shoutouts.shoutoutDeletedMessage user.fullName shout.id
          shout.content = l₁ ++ user.fullName ++ l₂) ∧
      (∃ l₁ l₂, Shoutouts.shoutoutDeletedMessage user.fullName shout.id
          shout.content = l₁ ++ truncate shout.content 80 ++ l₂) ∧
      (∃ l₁ l₂, Shoutouts.shoutoutDeletedMessage user.fullName shout.id
          shout.content = l₁ ++ (Nat.repr shout.id).data ++ l₂)) ∧
    (∀ (db : DB) (sid : Nat) (user : UserRow) (now : PyDatetime)
        (shout : ShoutOutRow),
      db.shoutouts.find? (fun s => s.id == sid) = some shout →
      user.isAdmin = true →
      shout.createdById ≠ user.id →
      ∃ db', Shoutouts.deleteShoutout db sid user now = .ok db' ∧
        ∀ a ∈ db'.adminNotifications, a ∈ db.adminNotifications) := by
  constructor
  · intro db sid user now shout hfind hna hown hempty hstrip hlen
    have hmsg : truncate (Shoutouts.shoutoutDeletedMessage user.fullName
        shout.id shout.content) 500 =
        Shoutouts.shoutoutDeletedMessage user.fullName shout.id shout.content :=
      truncate_eq_self _ _ hstrip hlen
    refine ⟨?_,
      ⟨[], (" deleted their shout-out (#".data) ++ (Nat.repr shout.id).data ++
          ("): \"".data) ++ truncate shout.content 80 ++ ("\"".data),
        by simp [Shoutouts.shoutoutDeletedMessage, List.append_assoc]⟩,
      ⟨user.fullName ++ (" deleted their shout-out (#".data) ++
          (Nat.repr shout.id).data ++ ("): \"".data), ("\"".data),
        by simp [Shoutouts.shoutoutDeletedMessage, List.append_assoc]⟩,
      ⟨user.fullName ++ (" deleted their shout-out (#".data),
          ("): \"".data) ++ truncate shout.content 80 ++ ("\"".data),
        by simp [Shoutouts.shoutoutDeletedMessage, List.append_assoc]⟩⟩
    simp only [Shoutouts.deleteShoutout, hfind, hna, hown, notifyAdmins,
      hempty, hmsg, Bool.not_false, bne_self_eq_false, Bool.true_and,
      Bool.and_false, Bool.false_eq_true, if_false, beq_self_eq_true,
      Bool.and_true, if_true]
    by_cases hrep :
        ((db.reports.filter (fun r => r.shoutoutId == sid)).map
          (fun r => r.id)).isEmpty
    · rw [if_pos hrep]
      exact ⟨_, rfl, rfl⟩
    · rw [if_neg hrep]
      exact ⟨_, rfl, rfl⟩
  · intro db sid user now shout hfind hadm hnotown
    simp only [Shoutouts.deleteShoutout, hfind, hadm, Bool.not_true,
      Bool.false_and, Bool.false_eq_true, if_false]
    by_cases hrep :
        ((db.reports.filter (fun r => r.shoutoutId == sid)).map
          (fun r => r.id)).isEmpty
    · rw [if_pos hrep]
      exact ⟨_, rfl, fun a ha => (List.mem_filter.mp ha).1⟩
    · rw [if_neg hrep]
      exact ⟨_, rfl, fun a ha => (List.mem_filter.mp ha).1⟩

/-- Witness for C3 (amended): `userA` deletes their own fixture shout-out; the
single audit row carries the message with name, snippet and id, and a NULL
`shoutout_id`. -/
theorem shoutout_delete_audit_witness :
    (∃ db', Shoutouts.deleteShoutout baseDb 5 userA
        { wall := 0, tzOffset := none } = .ok db' ∧
      db'.adminNotifications =
        [{ id := baseDb.nextId, eventType := "shoutout_deleted",
           message := Shoutouts.shoutoutDeletedMessage userA.fullName
             shoutA.id shoutA.content,
           createdAt := { wall := 0, tzOffset := none }, actorId := userA.id,
           shoutoutId := none, reportId := none }]) ∧
    (∃ l₁ l₂, Shoutouts.shoutoutDeletedMessage userA.fullName shoutA.id
        shoutA.content = l₁ ++ userA.fullName ++ l₂) ∧
    (∃ l₁ l₂, Shoutouts.shoutoutDeletedMessage userA.fullName shoutA.id
        shoutA.content = l₁ ++ truncate shoutA.content 80 ++ l₂) ∧
    (∃ l₁ l₂, Shoutouts.shoutoutDeletedMessage userA.fullName shoutA.id
        shoutA.content = l₁ ++ (Nat.repr shoutA.id).data ++ l₂) :=
  shoutout_delete_audit.1 baseDb 5 userA { wall := 0, tzOffset := none } shoutA
    (by rfl) (by rfl) (by rfl) (by rfl) (by decide) (by decide)

/-- C9: after a successful delete of shout-out `sid`, no row in any dependent
table references `sid` — recipients, reactions, comments, attachments,
reports, notifications, admin notifications by their `shoutout_id` column, and
admin notifications referencing any of `sid`'s reports — and the shout-out row
itself is gone. -/
theorem cascade_delete (db : DB) (sid : Nat) (user : UserRow)
    (now : PyDatetime) (db' : DB)
    (h : Shoutouts.deleteShoutout db sid user now = .ok db') :
    (∀ s ∈ db'.shoutouts, s.id ≠ sid) ∧
    (∀ r ∈ db'.recipients, r.shoutoutId ≠ sid) ∧
    (∀ r ∈ db'.reactions, r.shoutoutId ≠ sid) ∧
    (∀ c ∈ db'.comments, c.shoutoutId ≠ sid) ∧
    (∀ a ∈ db'.attachments, a.shoutoutId ≠ sid) ∧
    (∀ r ∈ db'.reports, r.shoutoutId ≠ sid) ∧
    (∀ n ∈ db'.notifications, n.shoutoutId ≠ sid) ∧
    (∀ a ∈ db'.adminNotifications, a.shoutoutId ≠ some sid) ∧
    (∀ a ∈ db'.adminNotifications, ∀ rep ∈ db.reports,
      rep.shoutoutId = sid → a.reportId ≠ some rep.id) := by
  cases hfind : db.shoutouts.find? (fun s => s.id == sid) with
  | none =>
    simp only [Shoutouts.deleteShoutout, hfind] at h
    exact absurd h (by simp)
  | some shout =>
    simp only [Shoutouts.deleteShoutout, hfind] at h
    by_cases hperm : (!user.isAdmin && shout.createdById != user.id) = true
    · rw [if_pos hperm] at h
      exact absurd h (by simp)
    · rw [if_neg hperm] at h
      by_cases hud : (!user.isAdmin && (shout.createdById == user.id)) = true
      all_goals first
        | rw [if_pos hud] at h
        | rw [if_neg hud] at h
      all_goals try simp only [notifyAdmins] at h
      all_goals
        by_cases hrep :
          ((db.reports.filter (fun r => r.shoutoutId == sid)).map
            (fun r => r.id)).isEmpty = true
      all_goals first
        | rw [if_pos hrep] at h
        | rw [if_neg hrep] at h
      all_goals rw [Except.ok.injEq] at h
      all_goals subst h
      all_goals
        refine ⟨fun x hx => by simpa using (List.mem_filter.mp hx).2,
          fun x hx => by simpa using (List.mem_filter.mp hx).2,
          fun x hx => by simpa using (List.mem_filter.mp hx).2,
          fun x hx => by simpa using (List.mem_filter.mp hx).2,
          fun x hx => by simpa using (List.mem_filter.mp hx).2,
          fun x hx => by simpa using (List.mem_filter.mp hx).2,
          fun x hx => by simpa using (List.mem_filter.mp hx).2,
          fun a ha => ?_, fun a ha rep hrepmem hrs => ?_⟩
      -- the admin-notification goal pairs, per branch in order:
      -- (self-delete, no reports), (self-delete, reports),
      -- (other delete, no reports), (other delete, reports)
      · have h2 := (List.mem_filter.mp ha).2
        simpa using h2
      · simp only [List.isEmpty_iff, List.map_eq_nil_iff,
          List.filter_eq_nil_iff] at hrep
        exact absurd (by simp [hrs]) (hrep rep hrepmem)
      · have h2 := (List.mem_filter.mp ha).2
        simp only [Bool.not_eq_true'] at h2
        intro hcontra
        rw [hcontra] at h2
        simp at h2
      · have h2 := (List.mem_filter.mp ha).2
        intro hcontra
        rw [hcontra] at h2
        have hmem : rep.id ∈ (db.reports.filter
            (fun r => r.shoutoutId == sid)).map (fun r => r.id) :=
          List.mem_map.mpr ⟨rep, List.mem_filter.mpr ⟨hrepmem, by
            simp [hrs]⟩, rfl⟩
        simp [List.elem_eq_mem, hmem] at h2
      · have h2 := (List.mem_filter.mp ha).2
        simpa using h2
      · simp only [List.isEmpty_iff, List.map_eq_nil_iff,
          List.filter_eq_nil_iff] at hrep
        exact absurd (by simp [hrs]) (hrep rep hrepmem)
      · have h2 := (List.mem_filter.mp ha).2
        simp only [Bool.not_eq_true'] at h2
        intro hcontra
        rw [hcontra] at h2
        simp at h2
      · have h2 := (List.mem_filter.mp ha).2
        intro hcontra
        rw [hcontra] at h2
        have hmem : rep.id ∈ (db.reports.filter
            (fun r => r.shoutoutId == sid)).map (fun r => r.id) :=
          List.mem_map.mpr ⟨rep, List.mem_filter.mpr ⟨hrepmem, by
            simp [hrs]⟩, rfl⟩
        simp [List.elem_eq_mem, hmem] at h2

/-- Witness for C9: deleting the fixture shout-out from the fully populated
store succeeds and leaves no row referencing it in any table. -/
theorem cascade_delete_witness :
    Shoutouts.deleteShoutout fullDb 5 userA { wall := 0, tzOffset := none } =
      .ok deletedFullDb ∧
    ((∀ s ∈ deletedFullDb.shoutouts, s.id ≠ 5) ∧
     (∀ r ∈ deletedFullDb.recipients, r.shoutoutId ≠ 5) ∧
     (∀ r ∈ deletedFullDb.reactions, r.shoutoutId ≠ 5) ∧
     (∀ c ∈ deletedFullDb.comments, c.shoutoutId ≠ 5) ∧
     (∀ a ∈ deletedFullDb.attachments, a.shoutoutId ≠ 5) ∧
     (∀ r ∈ deletedFullDb.reports, r.shoutoutId ≠ 5) ∧
     (∀ n ∈ deletedFullDb.notifications, n.shoutoutId ≠ 5) ∧
     (∀ a ∈ deletedFullDb.adminNotifications, a.shoutoutId ≠ some 5) ∧
     (∀ a ∈ deletedFullDb.adminNotifications, ∀ rep ∈ fullDb.reports,
       rep.shoutoutId = 5 → a.reportId ≠ some rep.id)) :=
  ⟨by rfl,
   cascade_delete fullDb 5 userA { wall := 0, tzOffset := none }
     deletedFullDb (by rfl)⟩

/-- C4 is false as stated about the error kinds: reporting one's own shout-out
and re-reporting while an open report exists both fail with HTTP 400 (Bad
Request), not 403 Forbidden and not 409 Conflict.  Evaluated: the author
(`userA`) reporting fixture shout-out 5, and `userB` re-reporting it while
their earlier report is still open. -/
theorem report_shoutout_status_counterexample :
    Shoutouts.reportShoutout baseDb 5 userA none { wall := 0, tzOffset := none }
      = .error 400 ∧
    (400 : Nat) ≠ 403 ∧
    Shoutouts.reportShoutout openReportDb 5 userB none
      { wall := 0, tzOffset := none } = .error 400 ∧
    (400 : Nat) ≠ 409 :=
  ⟨rfl, by decide, rfl, by decide⟩

/-- C4 (amended): reporting a shout-out fails with a 400 error when the
reporter authored it, fails with a 400 error when the reporter already has an
open report on it (creating nothing in either case, since the handler raises
before any insert), and otherwise — in particular when every earlier report by
this reporter on this shout-out has been resolved — creates exactly one open
Report and exactly one AdminNotification with eventType `report_submitted`
referencing the shout-out and the new report. -/
theorem report_shoutout_spec :
    (∀ (db : DB) (sid : Nat) (user : UserRow) (reasonRaw : Option (List Char))
        (now : PyDatetime) (shout : ShoutOutRow),
      db.shoutouts.find? (fun s => s.id == sid) = some shout →
      shout.createdById = user.id →
      Shoutouts.reportShoutout db sid user reasonRaw now = .error 400) ∧
    (∀ (db : DB) (sid : Nat) (user : UserRow) (reasonRaw : Option (List Char))
        (now : PyDatetime) (shout : ShoutOutRow),
      db.shoutouts.find? (fun s => s.id == sid) = some shout →
      shout.createdById ≠ user.id →
      db.reports.any (fun r => r.shoutoutId == sid &&
        r.reporterId == user.id && r.status == "open") = true →
      Shoutouts.reportShoutout db sid user reasonRaw now = .error 400) ∧
    (∀ (db : DB) (sid : Nat) (user : UserRow) (reasonRaw : Option (List Char))
        (now : PyDatetime) (shout : ShoutOutRow),
      db.shoutouts.find? (fun s => s.id == sid) = some shout →
      shout.createdById ≠ user.id →
      (∀ r ∈ db.reports, r.shoutoutId = sid → r.reporterId = user.id →
        r.status ≠ "open") →
      ∃ db' rep, Shoutouts.reportShoutout db sid user reasonRaw now =
          .ok (db', rep) ∧
        rep.status = "open" ∧ rep.shoutoutId = sid ∧
        rep.reporterId = user.id ∧
        db'.reports = db.reports ++ [rep] ∧
        ∃ note, db'.adminNotifications = db.adminNotifications ++ [note] ∧
          note.eventType = "report_submitted" ∧ note.actorId = user.id ∧
          note.shoutoutId = some sid ∧ note.reportId = some rep.id) := by
  refine ⟨?_, ?_, ?_⟩
  · intro db sid user reasonRaw now shout hfind hown
    have hbe : (shout.createdById == user.id) = true := beq_iff_eq.mpr hown
    simp [Shoutouts.reportShoutout, hfind, hbe]
  · intro db sid user reasonRaw now shout hfind hown hopen
    have hbe : (shout.createdById == user.id) = false :=
      beq_eq_false_iff_ne.mpr hown
    simp [Shoutouts.reportShoutout, hfind, hbe, hopen]
  · intro db sid user reasonRaw now shout hfind hown hres
    have hbe : (shout.createdById == user.id) = false :=
      beq_eq_false_iff_ne.mpr hown
    have hopen : db.reports.any (fun r => r.shoutoutId == sid &&
        r.reporterId == user.id && r.status == "open") = false := by
      rw [List.any_eq_false]
      intro r hr
      intro hcontra
      simp only [Bool.and_eq_true, beq_iff_eq] at hcontra
      exact hres r hr hcontra.1.1 hcontra.1.2 hcontra.2
    simp only [Shoutouts.reportShoutout, hfind, hbe, Bool.false_eq_true,
      if_false, hopen, notifyAdmins]
    exact ⟨_, _, rfl, rfl, rfl, rfl, rfl, _, rfl, rfl, rfl, rfl, rfl⟩

/-- Witness for C4 (amended): after `userB`'s earlier report on the fixture
shout-out was resolved, a fresh report by `userB` succeeds, creating one open
report and one `report_submitted` admin notification. -/
theorem report_shoutout_spec_witness :
    ∃ db' rep, Shoutouts.reportShoutout resolvedReportDb 5 userB none
        { wall := 0, tzOffset := none } = .ok (db', rep) ∧
      rep.status = "open" ∧ rep.shoutoutId = 5 ∧ rep.reporterId = userB.id ∧
      db'.reports = resolvedReportDb.reports ++ [rep] ∧
      ∃ note, db'.adminNotifications =
          resolvedReportDb.adminNotifications ++ [note] ∧
        note.eventType = "report_submitted" ∧ note.actorId = userB.id ∧
        note.shoutoutId = some 5 ∧ note.reportId = some rep.id :=
  report_shoutout_spec.2.2 resolvedReportDb 5 userB none
    { wall := 0, tzOffset := none } shoutA (by rfl) (by decide) (by decide)

/-- Witness for C10: a second resolve of the fixture's resolved report, by a
different admin at a later time, changes nothing. -/
theorem resolve_report_idempotent_witness :
    Admin.resolveReport resolvedReportDb 3 userC { wall := 99, tzOffset := none }
      = .ok (resolvedReportDb,
        { id := 3, shoutoutId := 5, reporterId := 2, reason := none,
          status := "resolved", createdAt := { wall := 0, tzOffset := none },
          resolvedAt := some { wall := 0, tzOffset := none },
          resolvedById := some 3 }) :=
  resolve_report_idempotent resolvedReportDb 3 userC
    { wall := 99, tzOffset := none } _ (by rfl) (by rfl)

end BragBoard
